import Mathlib

/-!
Shallow embedding of the SoundCloud-to-MP3 Flask application (`app.py`).

The application shells out to `yt-dlp`, watches a downloads directory and
serves files over HTTP.  All effects are made explicit:

* the external world (URL-parsing library, `shutil.which`, the subprocess,
  the directory listing, `os.path.getsize`) is an `Env` record of oracles;
* the filesystem is a list of file names (directory listings never repeat a
  name, so deleting a file drops every entry equal to it);
* Python exceptions are constructors of an `Outcome` type: `DownloadError`
  values are `Outcome.err`, any other exception escaping the pipeline is
  `Outcome.crash`;
* observable side effects of the request handler (whether the pipeline ran,
  with which arguments, whether the subprocess was launched, which timers
  were started) are ghost fields of `RouteResult`.

String primitives are re-implemented over `String.data` so that every
definition reduces inside the kernel; each mirrors the Python method named
in its comment.
-/

/-- Model of Python `str.lower`. -/
def strToLower (s : String) : String := ⟨s.data.map Char.toLower⟩

/-- Model of Python `str.strip` (drop whitespace at both ends). -/
def strTrim (s : String) : String :=
  ⟨((s.data.dropWhile Char.isWhitespace).reverse.dropWhile Char.isWhitespace).reverse⟩

/-- Model of Python `str.startswith`. -/
def strStartsWith (s p : String) : Bool := p.data.isPrefixOf s.data

/-- Model of Python `str.endswith`. -/
def strEndsWith (s p : String) : Bool := p.data.isSuffixOf s.data

/-- Occurrence of a character pattern inside a character list. -/
def listContainsSub (pat : List Char) : List Char → Bool
  | [] => pat.isEmpty
  | c :: rest => pat.isPrefixOf (c :: rest) || listContainsSub pat rest

/-- Model of Python `pat in s` on strings. -/
def strContainsSub (s pat : String) : Bool := listContainsSub pat.data s.data

/-- Configuration constant `DOWNLOADS_DIR` (default `./downloads`). -/
def DOWNLOADS_DIR : String := "./downloads"

/-- Allow-listed hosts, `ALLOWED_DOMAINS` in `app.py`. -/
def ALLOWED_DOMAINS : List String := ["soundcloud.com", "on.soundcloud.com", "m.soundcloud.com"]

/-- Model of `os.path.join` as used with `DOWNLOADS_DIR`. -/
def os_path_join (a b : String) : String := a ++ "/" ++ b

/-- Model of `urlparse(netloc).hostname`: the part of the network location
before the port separator, lowercased. -/
def hostname (netloc : String) : String :=
  strToLower ⟨netloc.data.takeWhile (fun c => c ≠ ':')⟩

/-- Result of `subprocess.run(command, capture_output=True, text=True,
timeout=300, check=True)`: it either returns normally, raises
`TimeoutExpired`, or raises `CalledProcessError e` carrying the captured
standard-error text `stderr` (a `str`, because `text=True`) and the
rendering `str(e)` of the exception object. -/
inductive ProcResult where
  | ok
  | timedOut
  | failed (stderr : String) (excStr : String)
  deriving DecidableEq

/-- Oracles for everything outside the interpreter: the `validators` and
`urllib` libraries, `shutil.which`, the subprocess, and the state of the
downloads directory. `dirAfterRun` is the listing of `DOWNLOADS_DIR` right
after the subprocess finished; `initialDir` is the listing when no
subprocess ran. `getsize` is `os.path.getsize`. `sendFileRaises` tells
whether Flask `send_file` raises while transmitting. -/
structure Env where
  validators_url : String → Bool
  netloc : String → String
  hasYtDlp : Bool
  hasFfmpeg : Bool
  procResult : ProcResult
  timestamp : String
  jobId : String
  initialDir : List String
  dirAfterRun : List String
  getsize : String → Nat
  maxFileSize : Nat
  sendFileRaises : Bool

/-- `validate_soundcloud_url` (app.py lines 51-60). -/
def validate_soundcloud_url (env : Env) (url : String) : Bool × String :=
  if !(env.validators_url url) then
    (false, "Invalid URL format")
  else if !(ALLOWED_DOMAINS.contains (strToLower (env.netloc url))) then
    (false, "URL must be from SoundCloud")
  else
    (true, "Valid URL")

/-- `check_dependencies` (app.py lines 62-72). -/
def check_dependencies (env : Env) : List String :=
  (if !env.hasYtDlp then ["yt-dlp"] else []) ++ (if !env.hasFfmpeg then ["ffmpeg"] else [])

/-- The `DownloadError` values `download_soundcloud_to_mp3` can raise, one
constructor per raise site, labelled by the spec taxonomy. -/
inductive DownloadErr where
  | invalidInput (msg : String)
  | missingDependency (deps : List String)
  | timeout
  | sourceUnavailable
  | unsupportedSource
  | externalToolFailure (detail : String)
  | outputNotFound
  | fileTooLarge
  deriving DecidableEq

/-- The message string carried by each `DownloadError` in the source. -/
def DownloadErr.msg : DownloadErr → String
  | .invalidInput m => m
  | .missingDependency deps => "Missing dependencies: " ++ String.intercalate ", " deps
  | .timeout => "Download timeout - file may be too large or connection slow"
  | .sourceUnavailable => "Track is private or not available"
  | .unsupportedSource => "Unsupported SoundCloud URL"
  | .externalToolFailure d => "Download failed: " ++ d
  | .outputNotFound => "File not found after download"
  | .fileTooLarge => "File too large"

/-- How a call of `download_soundcloud_to_mp3` terminates: the success
dictionary, a raised `DownloadError`, or a non-`DownloadError` exception
escaping the function. -/
inductive Outcome where
  | ok (filename : String) (file_size : Nat)
  | err (e : DownloadErr)
  | crash (msg : String)
  deriving DecidableEq

/-- Call result of the pipeline together with its observable effects:
whether `subprocess.run` was reached and the final listing of
`DOWNLOADS_DIR`. -/
structure PipeResult where
  outcome : Outcome
  subprocessInvoked : Bool
  finalDir : List String
  deriving DecidableEq

/-- `download_soundcloud_to_mp3` (app.py lines 104-204).

The `except CalledProcessError` clause computes
`error_msg = e.stderr.decode() if e.stderr else str(e)`.  Because the
subprocess ran with `text=True`, `e.stderr` is a `str`; on a nonempty
`stderr` the attribute access `.decode` raises `AttributeError`.  An
exception raised inside an `except` clause is not caught by the sibling
`except Exception` clause of the same `try`, so it escapes the function:
this is the `crash` case.  With empty `stderr` the classification runs on
`str(e)` instead. -/
def download_soundcloud_to_mp3 (env : Env) (soundcloud_url : String)
    (audio_format : String) (quality : String) : PipeResult :=
  let v := validate_soundcloud_url env soundcloud_url
  if !v.1 then
    ⟨.err (.invalidInput v.2), false, env.initialDir⟩
  else
    let missing_deps := check_dependencies env
    if missing_deps ≠ [] then
      ⟨.err (.missingDependency missing_deps), false, env.initialDir⟩
    else
      match env.procResult with
      | .timedOut => ⟨.err .timeout, true, env.dirAfterRun⟩
      | .failed stderr excStr =>
        if stderr ≠ "" then
          ⟨.crash "AttributeError: str object has no attribute decode", true, env.dirAfterRun⟩
        else
          let error_msg := excStr
          if strContainsSub error_msg "Private video" || strContainsSub error_msg "not available" then
            ⟨.err .sourceUnavailable, true, env.dirAfterRun⟩
          else if strContainsSub error_msg "Unsupported URL" then
            ⟨.err .unsupportedSource, true, env.dirAfterRun⟩
          else
            ⟨.err (.externalToolFailure error_msg), true, env.dirAfterRun⟩
      | .ok =>
        let pfx := env.timestamp ++ "_" ++ env.jobId
        let downloaded_files := env.dirAfterRun.filter
          (fun f => strStartsWith f pfx && strEndsWith f ("." ++ strToLower audio_format))
        match downloaded_files with
        | [] => ⟨.err .outputNotFound, true, env.dirAfterRun⟩
        | filename :: _ =>
          let file_size := env.getsize filename
          if file_size > env.maxFileSize then
            ⟨.err .fileTooLarge, true, env.dirAfterRun.filter (fun g => g ≠ filename)⟩
          else
            ⟨.ok filename file_size, true, env.dirAfterRun⟩

/-- Body of a `POST /` request: `data.get` of `url`, `format` and
`quality`, each absent or present. -/
structure ReqData where
  url : Option String
  format : Option String
  quality : Option String
  deriving DecidableEq

/-- HTTP response produced by the handler: a JSON error body with a status
code, or a `send_file` attachment response (status 200). -/
inductive Resp where
  | json (status : Nat) (error : String)
  | file (path : String) (download_name : String) (mimetype : String)
  deriving DecidableEq

/-- Status code of a response. -/
def Resp.statusOf : Resp → Nat
  | .json s _ => s
  | .file _ _ _ => 200

/-- A started `threading.Timer`: its delay in seconds, the file path its
callback will remove, and whether `cancel` was ever called on it (the
handler keeps no reference to the timer, so nothing can cancel it). -/
structure TimerTask where
  delay : Nat
  filepath : String
  cancelled : Bool
  deriving DecidableEq

/-- Result of the POST branch of `download_route`, with ghost fields for
its observable effects: whether `download_soundcloud_to_mp3` was called and
with which `(url, format, quality)` arguments, how that call terminated,
whether `subprocess.run` was reached, the timers started, and the final
directory listing. -/
structure RouteResult where
  resp : Resp
  pipelineInvoked : Bool
  pipelineArgs : Option (String × String × String)
  pipeOutcome : Option Outcome
  subprocessInvoked : Bool
  timers : List TimerTask
  finalDir : List String
  deriving DecidableEq

/-- Quality validation of the handler (app.py lines 280-281): for MP3 a
quality outside the accepted set silently falls back to `"192"`. -/
def coerce_quality (audio_format quality : String) : String :=
  if audio_format == "mp3" && !(["128", "192", "256", "320"].contains quality) then "192"
  else quality

/-- The POST branch of `download_route` (app.py lines 260-328).

Order of events in the source: read and default the fields, reject an empty
URL (400), reject a format outside mp3/wav/aac after lowercasing (400),
silently coerce an invalid mp3 quality to "192", call the pipeline, map a
raised `DownloadError` to 400 and any other exception to 500, and on
success start one `threading.Timer(60.0, remove_file, args=[file_path])`
before `send_file`; a `send_file` failure is caught by the same
`except Exception` (500) but the timer is already running. -/
def download_route (env : Env) (data : ReqData) : RouteResult :=
  let soundcloud_url := strTrim (data.url.getD "")
  let audio_format := strToLower (data.format.getD "mp3")
  let quality := data.quality.getD "192"
  if soundcloud_url = "" then
    ⟨.json 400 "Please provide a SoundCloud URL", false, none, none, false, [], env.initialDir⟩
  else if !(["mp3", "wav", "aac"].contains audio_format) then
    ⟨.json 400 "Unsupported audio format", false, none, none, false, [], env.initialDir⟩
  else
    let quality := coerce_quality audio_format quality
    let r := download_soundcloud_to_mp3 env soundcloud_url audio_format quality
    let args := some (soundcloud_url, audio_format, quality)
    match r.outcome with
    | .err e =>
      ⟨.json 400 e.msg, true, args, some (.err e), r.subprocessInvoked, [], r.finalDir⟩
    | .crash m =>
      ⟨.json 500 "An unexpected error occurred", true, args, some (.crash m),
        r.subprocessInvoked, [], r.finalDir⟩
    | .ok filename file_size =>
      let file_path := os_path_join DOWNLOADS_DIR filename
      let timers := [⟨60, file_path, false⟩]
      if env.sendFileRaises then
        ⟨.json 500 "An unexpected error occurred", true, args, some (.ok filename file_size),
          r.subprocessInvoked, timers, r.finalDir⟩
      else
        ⟨.file file_path filename ("audio/" ++ audio_format), true, args,
          some (.ok filename file_size), r.subprocessInvoked, timers, r.finalDir⟩

/-- The `remove_file` closure scheduled by the timer (app.py lines
303-309): it removes the file if it exists, and catches every exception.
`removeRaises` tells whether `os.remove` raises.  Returns the directory
after the call and whether an exception propagated to the caller (never). -/
def remove_file (dir : List String) (filepath : String) (removeRaises : Bool) :
    List String × Bool :=
  if dir.contains filepath then
    if removeRaises then (dir, false)
    else (dir.filter (fun g => g ≠ filepath), false)
  else (dir, false)

/-- A directory entry as seen by `cleanup_old_files`: its name, its
`os.path.getmtime` value, and whether `os.path.isfile` holds. -/
structure DirEntry where
  name : String
  mtime : Int
  isFile : Bool
  deriving DecidableEq

/-- Core loop of `cleanup_old_files` (app.py lines 330-348): walk the
listing, remove every regular file strictly older than 3600 seconds, count
the removals.  Returns the surviving entries and the count. -/
def cleanup_old_files (current_time : Int) : List DirEntry → List DirEntry × Nat
  | [] => ([], 0)
  | e :: rest =>
    let r := cleanup_old_files current_time rest
    if e.isFile && decide (current_time - e.mtime > 3600) then (r.1, r.2 + 1)
    else (e :: r.1, r.2)

/-- Baseline oracle environment used by the concrete instances below: a
well-formed allow-listed URL, both tools installed, subprocess succeeds and
one matching 50000-byte file appears in the downloads directory. -/
def env0 : Env where
  validators_url := fun _ => true
  netloc := fun _ => "soundcloud.com"
  hasYtDlp := true
  hasFfmpeg := true
  procResult := .ok
  timestamp := "20240101"
  jobId := "ab12cd34"
  initialDir := []
  dirAfterRun := ["20240101_ab12cd34_Song.mp3"]
  getsize := fun _ => 50000
  maxFileSize := 104857600
  sendFileRaises := false

/-- Environment where the subprocess exits nonzero with a nonempty captured
standard-error text that announces a private track. -/
def env_c1 : Env :=
  { env0 with procResult := .failed "ERROR: Private video" "Command yt-dlp exited 1." }

/-- Environment where the subprocess exceeds the 300-second timeout. -/
def env_c2 : Env := { env0 with procResult := .timedOut }

/-- Environment where the produced file is larger than the configured
maximum file size. -/
def env_c3 : Env := { env0 with getsize := fun _ => 209715200 }

/-- Environment where the URL library reports the host of every URL as a
host outside the allow-list. -/
def env_c4 : Env := { env0 with netloc := fun _ => "evil.example.com" }

/-- Environment where the subprocess succeeds and the downloads directory
holds a matching `.wav` file. -/
def env_c5 : Env := { env0 with dirAfterRun := ["20240101_ab12cd34_Song.wav"] }

/-- Environment where the subprocess exits 0 but no file in the downloads
directory carries the generated prefix. -/
def env_c7 : Env := { env0 with dirAfterRun := ["unrelated.mp3"] }

/-- Environment where the URL library reports a netloc that carries an
explicit port next to an allow-listed host. -/
def env_c10 : Env := { env0 with netloc := fun _ => "soundcloud.com:443" }

/-- A well-formed request for an mp3 download at quality 192. -/
def req0 : ReqData := ⟨some "https://soundcloud.com/a/b", some "mp3", some "192"⟩

example : (download_soundcloud_to_mp3 env0 "https://soundcloud.com/a/b" "mp3" "320").outcome
    = .ok "20240101_ab12cd34_Song.mp3" 50000 := by decide

example : (download_route env0 ⟨some "https://soundcloud.com/a/b", some "mp3", some "320"⟩).resp
    = .file "./downloads/20240101_ab12cd34_Song.mp3" "20240101_ab12cd34_Song.mp3" "audio/mp3" := by
  decide

/-- A request with url, format mp3 and an out-of-range quality 999. -/
def req_q999 : ReqData := ⟨some "https://soundcloud.com/a/b", some "mp3", some "999"⟩

/-- Exhaustive case analysis of the POST branch of `download_route`: either
the URL is empty (400, nothing invoked), or the lowercased format is
outside the accepted set (400, nothing invoked), or the pipeline runs on
the trimmed URL, the lowercased format and the coerced quality, and the
response is determined by the pipeline outcome. -/
theorem download_route_cases (env : Env) (data : ReqData) (r : RouteResult)
    (hr : download_route env data = r) :
    (strTrim (data.url.getD "") = "" ∧
      r = ⟨.json 400 "Please provide a SoundCloud URL", false, none, none, false, [],
        env.initialDir⟩) ∨
    ((["mp3", "wav", "aac"].contains (strToLower (data.format.getD "mp3"))) = false ∧
      r = ⟨.json 400 "Unsupported audio format", false, none, none, false, [],
        env.initialDir⟩) ∨
    (∃ pr,
      strTrim (data.url.getD "") ≠ "" ∧
      (["mp3", "wav", "aac"].contains (strToLower (data.format.getD "mp3"))) = true ∧
      pr = download_soundcloud_to_mp3 env (strTrim (data.url.getD ""))
        (strToLower (data.format.getD "mp3"))
        (coerce_quality (strToLower (data.format.getD "mp3")) (data.quality.getD "192")) ∧
      r.pipelineInvoked = true ∧
      r.pipelineArgs = some (strTrim (data.url.getD ""), strToLower (data.format.getD "mp3"),
        coerce_quality (strToLower (data.format.getD "mp3")) (data.quality.getD "192")) ∧
      r.pipeOutcome = some pr.outcome ∧
      r.subprocessInvoked = pr.subprocessInvoked ∧
      r.finalDir = pr.finalDir ∧
      ((∃ e, pr.outcome = .err e ∧ r.resp = .json 400 e.msg ∧ r.timers = []) ∨
       (∃ m, pr.outcome = .crash m ∧ r.resp = .json 500 "An unexpected error occurred" ∧
         r.timers = []) ∨
       (∃ fn fs, pr.outcome = .ok fn fs ∧
         r.timers = [⟨60, os_path_join DOWNLOADS_DIR fn, false⟩] ∧
         r.resp = (if env.sendFileRaises then .json 500 "An unexpected error occurred"
           else .file (os_path_join DOWNLOADS_DIR fn) fn
             ("audio/" ++ strToLower (data.format.getD "mp3")))))) := by
  simp only [download_route] at hr
  by_cases hu : strTrim (data.url.getD "") = ""
  · rw [if_pos hu] at hr
    exact Or.inl ⟨hu, hr.symm⟩
  · rw [if_neg hu] at hr
    cases hf : (["mp3", "wav", "aac"].contains (strToLower (data.format.getD "mp3"))) with
    | false =>
      rw [hf] at hr
      simp only [Bool.not_false, if_true] at hr
      exact Or.inr (Or.inl ⟨rfl, hr.symm⟩)
    | true =>
      rw [hf] at hr
      simp only [Bool.not_true] at hr
      rw [if_neg (by simp)] at hr
      refine Or.inr (Or.inr ⟨download_soundcloud_to_mp3 env (strTrim (data.url.getD ""))
        (strToLower (data.format.getD "mp3"))
        (coerce_quality (strToLower (data.format.getD "mp3")) (data.quality.getD "192")),
        hu, rfl, rfl, ?_⟩)
      rcases ho : (download_soundcloud_to_mp3 env (strTrim (data.url.getD ""))
          (strToLower (data.format.getD "mp3"))
          (coerce_quality (strToLower (data.format.getD "mp3"))
            (data.quality.getD "192"))).outcome with ⟨fn, fs⟩ | e | m
      · simp only [ho] at hr
        by_cases hsf : env.sendFileRaises = true
        · rw [if_pos hsf] at hr
          subst hr
          refine ⟨rfl, rfl, rfl, rfl, rfl, Or.inr (Or.inr ⟨fn, fs, rfl, rfl, ?_⟩)⟩
          rw [if_pos hsf]
        · rw [if_neg hsf] at hr
          subst hr
          refine ⟨rfl, rfl, rfl, rfl, rfl, Or.inr (Or.inr ⟨fn, fs, rfl, rfl, ?_⟩)⟩
          rw [if_neg hsf]
      · simp only [ho] at hr
        subst hr
        exact ⟨rfl, rfl, rfl, rfl, rfl, Or.inl ⟨e, rfl, rfl, rfl⟩⟩
      · simp only [ho] at hr
        subst hr
        exact ⟨rfl, rfl, rfl, rfl, rfl, Or.inr (Or.inl ⟨m, rfl, rfl, rfl⟩)⟩

/-- C1: the claimed classification of the captured error text never runs on
a nonzero exit with nonempty captured stderr.  Because `subprocess.run` was
called with `text=True`, `e.stderr` is a `str` and `e.stderr.decode()`
raises `AttributeError`, which escapes the pipeline instead of producing
the claimed `SourceUnavailable` outcome.  Evaluated here at the failing
input: exit status 1 with stderr text `ERROR: Private video`. -/
theorem c1_stderr_decode_crashes :
    (download_soundcloud_to_mp3 env_c1 "https://soundcloud.com/a/b" "mp3" "192").outcome
      = .crash "AttributeError: str object has no attribute decode" ∧
    (download_soundcloud_to_mp3 env_c1 "https://soundcloud.com/a/b" "mp3" "192").outcome
      ≠ .err .sourceUnavailable := by decide

/-- C4: a URL whose host (the lowercased netloc) is outside
`ALLOWED_DOMAINS` is rejected by `validate_soundcloud_url` whatever the
rest of the URL looks like, and the pipeline then fails with the
`InvalidInput` class of `DownloadError` without reaching
`subprocess.run`. -/
theorem c4_disallowed_host_invalid (env : Env) (url fmt q : String)
    (h : ALLOWED_DOMAINS.contains (strToLower (env.netloc url)) = false) :
    (validate_soundcloud_url env url).1 = false ∧
    (∃ m, (download_soundcloud_to_mp3 env url fmt q).outcome = .err (.invalidInput m)) ∧
    (download_soundcloud_to_mp3 env url fmt q).subprocessInvoked = false := by
  have hmem : strToLower (env.netloc url) ∉ ALLOWED_DOMAINS := by simpa using h
  have hval : (validate_soundcloud_url env url).1 = false := by
    cases hw : env.validators_url url <;> simp [validate_soundcloud_url, hmem, hw]
  refine ⟨hval, ⟨(validate_soundcloud_url env url).2, ?_⟩, ?_⟩ <;>
    simp [download_soundcloud_to_mp3, hval]

/-- C4 witness: the scenario of the spec, a URL on `evil.example.com`. -/
theorem c4_disallowed_host_invalid_witness :
    (validate_soundcloud_url env_c4 "https://evil.example.com/x").1 = false ∧
    (∃ m, (download_soundcloud_to_mp3 env_c4 "https://evil.example.com/x" "mp3" "192").outcome
      = .err (.invalidInput m)) ∧
    (download_soundcloud_to_mp3 env_c4 "https://evil.example.com/x" "mp3" "192").subprocessInvoked
      = false :=
  c4_disallowed_host_invalid env_c4 "https://evil.example.com/x" "mp3" "192" (by decide)

/-- C7: when the subprocess exits 0 but no file in the downloads directory
both starts with the generated `timestamp_jobId` prefix and ends with the
requested extension, the pipeline fails with `OutputNotFound`. -/
theorem c7_output_not_found (env : Env) (url fmt q : String)
    (hv : (validate_soundcloud_url env url).1 = true)
    (hd : check_dependencies env = [])
    (hp : env.procResult = .ok)
    (hnone : env.dirAfterRun.filter
        (fun f => strStartsWith f (env.timestamp ++ "_" ++ env.jobId) &&
          strEndsWith f ("." ++ strToLower fmt)) = []) :
    (download_soundcloud_to_mp3 env url fmt q).outcome = .err .outputNotFound := by
  simp [download_soundcloud_to_mp3, hv, hd, hp, hnone]

/-- C7 witness: tool exits 0, directory holds only an unrelated file. -/
theorem c7_output_not_found_witness :
    (download_soundcloud_to_mp3 env_c7 "https://soundcloud.com/a/b" "mp3" "192").outcome
      = .err .outputNotFound :=
  c7_output_not_found env_c7 "https://soundcloud.com/a/b" "mp3" "192"
    (by decide) (by decide) (by decide) (by decide)

/-- C10: `validate_soundcloud_url` compares the full netloc against the
allow-list, so the URL `https://soundcloud.com:443/track`, whose hostname
is the approved `soundcloud.com` but whose netloc carries the explicit
port 443, is rejected as not from SoundCloud. -/
theorem c10_port_rejected :
    validate_soundcloud_url env_c10 "https://soundcloud.com:443/track"
      = (false, "URL must be from SoundCloud") ∧
    ALLOWED_DOMAINS.contains (hostname (env_c10.netloc "https://soundcloud.com:443/track"))
      = true ∧
    ALLOWED_DOMAINS.contains
        (strToLower (env_c10.netloc "https://soundcloud.com:443/track")) = false := by
  decide

/-- C2 counterexample: a pipeline Timeout failure (a `DownloadError`, not
`InvalidInput`) is mapped to HTTP 400 by the handler, not to the claimed
HTTP 500, because `except DownloadError` returns 400 for every
`DownloadError`. -/
theorem c2_counterexample :
    (download_route env_c2 req0).pipeOutcome = some (.err .timeout) ∧
    (download_route env_c2 req0).resp.statusOf = 400 ∧
    (download_route env_c2 req0).resp.statusOf ≠ 500 := by decide

/-- C2 amended: every pipeline failure raised as a `DownloadError`
(`InvalidInput`, `Timeout`, `MissingDependency`, `SourceUnavailable`,
`UnsupportedSource`, `ExternalToolFailure`, `OutputNotFound`,
`FileTooLarge`) is mapped to HTTP 400 with a JSON error body; only
exceptions that are not `DownloadError` (crashes escaping the pipeline)
are mapped to HTTP 500. -/
theorem c2_amended_status_mapping (env : Env) (data : ReqData) :
    (∀ e, (download_route env data).pipeOutcome = some (.err e) →
      (download_route env data).resp.statusOf = 400) ∧
    (∀ m, (download_route env data).pipeOutcome = some (.crash m) →
      (download_route env data).resp.statusOf = 500) := by
  rcases download_route_cases env data (download_route env data) rfl with
    ⟨hu, hre⟩ | ⟨hff, hre⟩ | ⟨pr, hu, hff, hpr, hpi, hpa, hpo, hsi, hfd, hd⟩
  · rw [hre]
    exact ⟨fun e h => by simp at h, fun m h => by simp at h⟩
  · rw [hre]
    exact ⟨fun e h => by simp at h, fun m h => by simp at h⟩
  · constructor
    · intro e he
      rw [hpo] at he
      have hoe : pr.outcome = .err e := by simpa using he
      rcases hd with ⟨e2, ho, hresp, htm⟩ | ⟨m2, ho, hresp, htm⟩ | ⟨fn, fs, ho, htm, hresp⟩
      · rw [hresp]; rfl
      · rw [ho] at hoe; simp at hoe
      · rw [ho] at hoe; simp at hoe
    · intro m hm
      rw [hpo] at hm
      have hoe : pr.outcome = .crash m := by simpa using hm
      rcases hd with ⟨e2, ho, hresp, htm⟩ | ⟨m2, ho, hresp, htm⟩ | ⟨fn, fs, ho, htm, hresp⟩
      · rw [ho] at hoe; simp at hoe
      · rw [hresp]; rfl
      · rw [ho] at hoe; simp at hoe

/-- C2 amended witness: a Timeout failure yields 400; the crash produced by
the error-text decoding slip yields 500. -/
theorem c2_amended_status_mapping_witness :
    (download_route env_c2 req0).resp.statusOf = 400 ∧
    (download_route env_c1 req0).resp.statusOf = 500 :=
  ⟨(c2_amended_status_mapping env_c2 req0).1 .timeout (by decide),
   (c2_amended_status_mapping env_c1 req0).2
     "AttributeError: str object has no attribute decode" (by decide)⟩

/-- C3: when the tool succeeded, a matching file was found and its size
exceeds the configured maximum, the pipeline fails with `FileTooLarge` and
the file is no longer in the final directory listing (it is removed by
`os.remove` before the failure is raised). -/
theorem c3_file_too_large_deleted (env : Env) (url fmt q f : String) (rest : List String)
    (hv : (validate_soundcloud_url env url).1 = true)
    (hd : check_dependencies env = [])
    (hp : env.procResult = .ok)
    (hdl : env.dirAfterRun.filter
        (fun g => strStartsWith g (env.timestamp ++ "_" ++ env.jobId) &&
          strEndsWith g ("." ++ strToLower fmt)) = f :: rest)
    (hs : env.getsize f > env.maxFileSize) :
    (download_soundcloud_to_mp3 env url fmt q).outcome = .err .fileTooLarge ∧
    f ∉ (download_soundcloud_to_mp3 env url fmt q).finalDir := by
  simp [download_soundcloud_to_mp3, hv, hd, hp, hdl, hs]

/-- C3 witness: a 209715200-byte output against the 104857600-byte cap. -/
theorem c3_file_too_large_deleted_witness :
    (download_soundcloud_to_mp3 env_c3 "https://soundcloud.com/a/b" "mp3" "192").outcome
      = .err .fileTooLarge ∧
    "20240101_ab12cd34_Song.mp3"
      ∉ (download_soundcloud_to_mp3 env_c3 "https://soundcloud.com/a/b" "mp3" "192").finalDir :=
  c3_file_too_large_deleted env_c3 "https://soundcloud.com/a/b" "mp3" "192"
    "20240101_ab12cd34_Song.mp3" [] (by decide) (by decide) (by decide) (by decide) (by decide)

/-- C5 counterexample: the request format `"WAV"` is not one of
`mp3`/`wav`/`aac`, yet the handler does not return 400: it lowercases the
field first, invokes the pipeline, reaches the subprocess and returns the
file with status 200. -/
theorem c5_counterexample :
    ((["mp3", "wav", "aac"].contains "WAV") = false) ∧
    (download_route env_c5 ⟨some "https://soundcloud.com/a/b", some "WAV", some "192"⟩).pipelineInvoked
      = true ∧
    (download_route env_c5 ⟨some "https://soundcloud.com/a/b", some "WAV", some "192"⟩).subprocessInvoked
      = true ∧
    (download_route env_c5 ⟨some "https://soundcloud.com/a/b", some "WAV", some "192"⟩).resp.statusOf
      = 200 := by decide

/-- C5 amended: for every POST request whose format field, lowercased
(defaulting to mp3 when absent), is not one of mp3, wav, aac, the handler
returns HTTP 400 without invoking the pipeline: no subprocess, no timer,
and the downloads directory is untouched. -/
theorem c5_amended_format_check (env : Env) (data : ReqData)
    (h : (["mp3", "wav", "aac"].contains (strToLower (data.format.getD "mp3"))) = false) :
    (download_route env data).resp.statusOf = 400 ∧
    (download_route env data).pipelineInvoked = false ∧
    (download_route env data).subprocessInvoked = false ∧
    (download_route env data).timers = [] ∧
    (download_route env data).finalDir = env.initialDir := by
  rcases download_route_cases env data (download_route env data) rfl with
    ⟨hu, hre⟩ | ⟨hff, hre⟩ | ⟨pr, hu, hff, hrest⟩
  · rw [hre]; exact ⟨rfl, rfl, rfl, rfl, rfl⟩
  · rw [hre]; exact ⟨rfl, rfl, rfl, rfl, rfl⟩
  · rw [h] at hff; exact absurd hff (by decide)

/-- C5 amended witness: format `ogg` is rejected with 400 and no effect. -/
theorem c5_amended_format_check_witness :
    (download_route env0 ⟨some "https://soundcloud.com/a/b", some "ogg", none⟩).resp.statusOf
      = 400 ∧
    (download_route env0 ⟨some "https://soundcloud.com/a/b", some "ogg", none⟩).pipelineInvoked
      = false ∧
    (download_route env0 ⟨some "https://soundcloud.com/a/b", some "ogg", none⟩).subprocessInvoked
      = false ∧
    (download_route env0 ⟨some "https://soundcloud.com/a/b", some "ogg", none⟩).timers = [] ∧
    (download_route env0 ⟨some "https://soundcloud.com/a/b", some "ogg", none⟩).finalDir
      = env0.initialDir :=
  c5_amended_format_check env0 ⟨some "https://soundcloud.com/a/b", some "ogg", none⟩ (by decide)

/-- C6: for a request whose lowercased format is mp3 and whose quality is
outside the accepted set, the handler behaves exactly as if the quality had
been "192": the route result is unchanged under that substitution, any
pipeline invocation receives quality "192", and with a nonempty URL the
pipeline is indeed invoked with the coerced value. -/
theorem c6_quality_coerced (env : Env) (data : ReqData)
    (hf : strToLower (data.format.getD "mp3") = "mp3")
    (hq : (["128", "192", "256", "320"].contains (data.quality.getD "192")) = false) :
    download_route env data = download_route env { data with quality := some "192" } ∧
    (∀ u f q, (download_route env data).pipelineArgs = some (u, f, q) → q = "192") ∧
    (strTrim (data.url.getD "") ≠ "" →
      (download_route env data).pipelineArgs
        = some (strTrim (data.url.getD ""), "mp3", "192")) := by
  have hq2 : (data.quality.getD "192") ∉ (["128", "192", "256", "320"] : List String) := by
    simpa using hq
  have hcoe : coerce_quality "mp3" (data.quality.getD "192") = "192" := by
    simp [coerce_quality, hq2]
  have hcoe2 : coerce_quality "mp3" "192" = "192" := by decide
  refine ⟨?_, ?_, ?_⟩
  · simp [download_route, hf, hcoe, hcoe2]
  · intro u f q hargs
    rcases download_route_cases env data (download_route env data) rfl with
      ⟨hu, hre⟩ | ⟨hff, hre⟩ | ⟨pr, hu, hff, hpr, hpi, hpa, hpo, hsi, hfd, hd⟩
    · rw [hre] at hargs; simp at hargs
    · rw [hre] at hargs; simp at hargs
    · rw [hpa, hf, hcoe] at hargs
      simp only [Option.some.injEq, Prod.mk.injEq] at hargs
      exact hargs.2.2.symm
  · intro hne
    rcases download_route_cases env data (download_route env data) rfl with
      ⟨hu, hre⟩ | ⟨hff, hre⟩ | ⟨pr, hu, hff, hpr, hpi, hpa, hpo, hsi, hfd, hd⟩
    · exact absurd hu hne
    · rw [hf] at hff; exact absurd hff (by decide)
    · rw [hpa, hf, hcoe]

/-- C6 witness: quality 999 is coerced to 192 and reaches the pipeline. -/
theorem c6_quality_coerced_witness :
    download_route env0 req_q999 = download_route env0 { req_q999 with quality := some "192" } ∧
    (download_route env0 req_q999).pipelineArgs
      = some ("https://soundcloud.com/a/b", "mp3", "192") :=
  ⟨(c6_quality_coerced env0 req_q999 (by decide) (by decide)).1,
   ((c6_quality_coerced env0 req_q999 (by decide) (by decide)).2.2 (by decide)).trans
     (by decide)⟩

/-- C8: one pass of the sweep cleanup deletes exactly the regular files
whose last-modified time lies strictly more than 3600 seconds before the
current time, keeps everything else, and reports the number of deletions. -/
theorem c8_sweep_cleanup (current_time : Int) (entries : List DirEntry) :
    (cleanup_old_files current_time entries).1
      = entries.filter (fun e => !(e.isFile && decide (current_time - e.mtime > 3600))) ∧
    (cleanup_old_files current_time entries).2
      = (entries.filter (fun e => e.isFile && decide (current_time - e.mtime > 3600))).length := by
  induction entries with
  | nil => exact ⟨rfl, rfl⟩
  | cons e rest ih =>
    simp only [cleanup_old_files, List.filter_cons]
    cases hc : (e.isFile && decide (current_time - e.mtime > 3600)) <;>
      simp [hc, ih.1, ih.2]

example :
    (cleanup_old_files 10000
      [⟨"old.mp3", 10000 - 7200, true⟩, ⟨"new.mp3", 10000 - 300, true⟩]).2 = 1 ∧
    (cleanup_old_files 10000
      [⟨"old.mp3", 10000 - 7200, true⟩, ⟨"new.mp3", 10000 - 300, true⟩]).1
      = [⟨"new.mp3", 10000 - 300, true⟩] := by decide

/-- C9: whenever the pipeline hands a produced file to the handler, the
handler starts exactly one timer, with the fixed 60-second delay, for the
deletion of exactly that file, never cancelled — this holds for every
environment, in particular whether or not `send_file` then fails — and the
scheduled `remove_file` callback never propagates a deletion failure to
any caller. -/
theorem c9_deferred_cleanup (env : Env) (data : ReqData) (filename : String) (file_size : Nat)
    (h : (download_route env data).pipeOutcome = some (.ok filename file_size)) :
    (download_route env data).timers
      = [⟨60, os_path_join DOWNLOADS_DIR filename, false⟩] ∧
    (∀ dir p rr, (remove_file dir p rr).2 = false) := by
  refine ⟨?_, fun dir p rr => by simp only [remove_file]; split <;> (try split) <;> rfl⟩
  rcases download_route_cases env data (download_route env data) rfl with
    ⟨hu, hre⟩ | ⟨hff, hre⟩ | ⟨pr, hu, hff, hpr, hpi, hpa, hpo, hsi, hfd, hd⟩
  · rw [hre] at h; simp at h
  · rw [hre] at h; simp at h
  · rw [hpo] at h
    have hoe : pr.outcome = .ok filename file_size := by simpa using h
    rcases hd with ⟨e2, ho, hresp, htm⟩ | ⟨m2, ho, hresp, htm⟩ | ⟨fn, fs, ho, htm, hresp⟩
    · rw [ho] at hoe; simp at hoe
    · rw [ho] at hoe; simp at hoe
    · rw [ho] at hoe
      obtain ⟨h1, h2⟩ : fn = filename ∧ fs = file_size := by simpa using hoe
      subst h1
      exact htm

/-- C9 witness: the successful baseline download schedules the single
60-second deletion timer, and a failing removal is swallowed. -/
theorem c9_deferred_cleanup_witness :
    (download_route env0 req0).timers
      = [⟨60, os_path_join DOWNLOADS_DIR "20240101_ab12cd34_Song.mp3", false⟩] ∧
    (remove_file ["a.mp3"] "a.mp3" true).2 = false :=
  ⟨(c9_deferred_cleanup env0 req0 "20240101_ab12cd34_Song.mp3" 50000 (by decide)).1,
   (c9_deferred_cleanup env0 req0 "20240101_ab12cd34_Song.mp3" 50000 (by decide)).2
     ["a.mp3"] "a.mp3" true⟩
